import Mathlib

set_option maxHeartbeats 1000000

set_option maxRecDepth 4000

/-!
Verification development for the BatePapo voice-conversation component
(src/components/voice-provider.tsx and its variants under src/unnamed/).

The development shallowly embeds the turn-taking logic:

* the voice-activity segmenter loop of `startVoiceActivityDetection`
  (run-length counters over energy samples);
* the recognition event handlers (`onresult`, the silence timer set by
  `handleSpeechSilence`, `stopRealTimeSpeechRecognition`) and the
  conversation-level operations (`stopConversation`, `sendTextMessage`);
* the synthesis path (`speakText`, `processSpeechWithPauses`);
* the session-memory layer (`saveUserProfile` / `loadUserProfile`,
  conversation-history rolling window);
* the local reply fallback (`getContextualResponse`, `generateAIResponse`);
* the onboarding extraction of the part_001 variant
  (`processSession1Information`).

Energy samples are rationals (the source averages byte-frequency data, a
fractional number); the run-length counters are integers, as in the
source where `Math.max(0, n - 1)` flooring is explicit.  Asynchronous
callbacks are modelled as explicit state-transition functions on a state
record; an invocation of the reply engine (`generateResponse`) is
recorded in the `replyCalls` field.  Platform synthesis/recognition
results are supplied by explicit oracle parameters.
-/

/-! ### Voice-activity segmenter (startVoiceActivityDetection, lines 486-571) -/

/-- Silence energy threshold of the segmenter (line 504). -/
def SILENCE_THRESHOLD : ℚ := 10

/-- Speech energy threshold of the segmenter (line 505). -/
def SPEECH_THRESHOLD : ℚ := 15

/-- Number of silence frames needed to stop recording (line 506). -/
def SILENCE_DURATION : ℤ := 8

/-- Number of speech frames needed to start recording (line 507). -/
def SPEECH_DURATION : ℤ := 2

/-- State carried across iterations of the voice-activity interval:
the two run-length counters `speechCount` / `silenceCount` (integers, as
in the source, where flooring at zero is the explicit
`Math.max(0, n - 1)`), the recording flag (`isRecordingRef` together
with the media-recorder state), and a count of how many times recording
actually began (to observe duplicate starts). -/
structure VadState where
  speechCount : ℤ
  silenceCount : ℤ
  recording : Bool
  recordingStartCalls : Nat
deriving DecidableEq

/-- Translation of `startRecording` (lines 597-616): a no-op when already
recording or when the agent is speaking; otherwise (media recorder
inactive) recording begins. -/
def startRecording (agentSpeaking : Bool) (s : VadState) : VadState :=
  if s.recording || agentSpeaking then s
  else { s with recording := true, recordingStartCalls := s.recordingStartCalls + 1 }

/-- Translation of `stopRecording` (lines 618-625): stops the media
recorder and clears the recording flag. -/
def stopRecording (s : VadState) : VadState :=
  { s with recording := false }

/-- One iteration of the voice-activity interval callback
(lines 509-548), for one energy sample `average`.  Samples are only
processed under the guard `isAutoListeningRef.current && !isAgentSpeaking`;
above the speech threshold the speech counter increments and the silence
counter is set to 0; below the silence threshold the silence counter
increments and the speech counter is set to 0; in the dead band both
counters decay by one, floored at zero (`Math.max(0, n - 1)`). -/
def vadIntervalStep (autoListening agentSpeaking : Bool) (average : ℚ)
    (s : VadState) : VadState :=
  if autoListening && !agentSpeaking then
    if SPEECH_THRESHOLD < average then
      if SPEECH_DURATION ≤ s.speechCount + 1 ∧ s.recording = false then
        startRecording agentSpeaking
          { s with speechCount := s.speechCount + 1, silenceCount := 0 }
      else { s with speechCount := s.speechCount + 1, silenceCount := 0 }
    else if average < SILENCE_THRESHOLD then
      if SILENCE_DURATION ≤ s.silenceCount + 1 ∧ s.recording = true then
        stopRecording { s with silenceCount := s.silenceCount + 1, speechCount := 0 }
      else { s with silenceCount := s.silenceCount + 1, speechCount := 0 }
    else
      { s with speechCount := max 0 (s.speechCount - 1),
               silenceCount := max 0 (s.silenceCount - 1) }
  else s

/-- A run of the voice-activity loop over a sequence of energy samples. -/
def vadRun (autoListening agentSpeaking : Bool) (samples : List ℚ)
    (s : VadState) : VadState :=
  samples.foldl (fun st a => vadIntervalStep autoListening agentSpeaking a st) s

/-- Segmenter state with a pending silence run, used to exhibit the
reset-on-opposite-sample behaviour. -/
def c3State : VadState :=
  { speechCount := 0, silenceCount := 5, recording := false, recordingStartCalls := 0 }

/-! ### Coordinator state and recognition event handlers
(voice-provider.tsx, first variant, lines 53-1363) -/

/-- Whitespace trimming as used by the source (`String.prototype.trim`),
implemented structurally over the character list. -/
def jsTrim (s : String) : String :=
  String.mk (((s.toList.dropWhile Char.isWhitespace).reverse.dropWhile
    Char.isWhitespace).reverse)

/-- Observable provider state together with the resources owned by the
component.  React state and refs are collapsed into one record:
`silenceTimer` holds the transcript captured by a pending
`handleSpeechSilence` timer (`silenceTimerRef`), `recognitionActive`
mirrors `isRecognitionActiveRef`, and `replyCalls` records, in order,
every transcript passed to `generateResponse` (the reply engine).
`vadIntervalActive`, `micConnected`, `audioContextOpen` and `streamLive`
are the audio resources managed by `startVoiceActivityDetection` /
`stopVoiceActivityDetection`; the `*Calls` counters count the release
operations actually performed on them. -/
structure VoiceState where
  isConnected : Bool
  isListening : Bool
  isAgentSpeaking : Bool
  isRecording : Bool
  isAutoListening : Bool
  recognitionActive : Bool
  silenceTimer : Option String
  lastTranscript : String
  currentTranscript : String
  subtitles : String
  synthSpeaking : Bool
  vadIntervalActive : Bool
  micConnected : Bool
  audioContextOpen : Bool
  streamLive : Bool
  voiceActivity : ℚ
  replyCalls : List String
  recognitionStopCalls : Nat
  micDisconnectCalls : Nat
  contextCloseCalls : Nat
  trackStopCalls : Nat
deriving DecidableEq

/-- Translation of `stopRealTimeSpeechRecognition` (lines 467-481): always
clears a pending silence timer; stops recognition, listening and
recording only when recognition is active. -/
def stopRealTimeSpeechRecognition (s : VoiceState) : VoiceState :=
  let s1 : VoiceState := { s with silenceTimer := none }
  if s1.recognitionActive then
    { s1 with recognitionActive := false, isListening := false, isRecording := false,
              recognitionStopCalls := s1.recognitionStopCalls + 1 }
  else s1

/-- Translation of `handleSpeechSilence` (lines 445-465): clears any
pending silence timer and arms a fresh one that captures `transcript`.
The timer firing itself is `fireSilenceTimer`. -/
def handleSpeechSilence (transcript : String) (s : VoiceState) : VoiceState :=
  { s with silenceTimer := some transcript }

/-- Translation of `stopVoiceInput` (lines 637-643). -/
def stopVoiceInput (s : VoiceState) : VoiceState :=
  stopRealTimeSpeechRecognition { s with isAutoListening := false }

/-- Synchronous prefix of `generateResponse` (lines 990-1065): clears the
listening flag, stops voice input if recording, and invokes the reply
engine for `userMessage`.  The invocation itself is recorded in
`replyCalls`; the asynchronous reply/speech continuation is modelled
separately by `speakText`. -/
def generateResponse (userMessage : String) (s : VoiceState) : VoiceState :=
  let s1 : VoiceState := { s with isListening := false }
  let s2 : VoiceState := if s1.isRecording then stopVoiceInput s1 else s1
  { s2 with replyCalls := s2.replyCalls ++ [userMessage] }

/-- Firing of the silence timer armed by `handleSpeechSilence`
(lines 452-464): if the timer is still pending, it sets the transcript,
stops recognition and invokes `generateResponse` with the captured
transcript; a cleared timer never fires (clearTimeout semantics). -/
def fireSilenceTimer (s : VoiceState) : VoiceState :=
  match s.silenceTimer with
  | none => s
  | some t =>
    let s1 : VoiceState := { s with currentTranscript := t }
    let s2 : VoiceState := stopRealTimeSpeechRecognition s1
    generateResponse t s2

/-- Translation of the `onresult` recognition handler (lines 1134-1181),
for one delivered event carrying a final transcript `finalT` and an
interim transcript `interimT` (either may be empty).  A nonempty final
transcript sets the transcript, clears any pending silence timer, stops
recognition and invokes `generateResponse`; otherwise a fresh interim
transcript (re)arms the silence timer via `handleSpeechSilence`.  The
handler contains no guard on connection state or recognition instance. -/
def onResult (finalT interimT : String) (s : VoiceState) : VoiceState :=
  let s1 : VoiceState :=
    if interimT ≠ "" then { s with currentTranscript := interimT ++ ("...") } else s
  if jsTrim finalT ≠ "" then
    let clean := jsTrim finalT
    let s2 : VoiceState := { s1 with currentTranscript := clean, silenceTimer := none }
    generateResponse clean (stopRealTimeSpeechRecognition s2)
  else
    let cur := if finalT = "" then interimT else finalT
    if jsTrim cur ≠ "" ∧ cur ≠ s1.lastTranscript then
      handleSpeechSilence (jsTrim cur) { s1 with lastTranscript := jsTrim cur }
    else s1

/-- Translation of `stopConversation` (lines 1311-1334): cancels speech
synthesis, stops real-time recognition, and resets all observable
state. -/
def stopConversation (s : VoiceState) : VoiceState :=
  let s1 : VoiceState := { s with synthSpeaking := false }
  let s2 : VoiceState := stopRealTimeSpeechRecognition s1
  { s2 with isAutoListening := false, isConnected := false, isListening := false,
            isAgentSpeaking := false, isRecording := false,
            currentTranscript := "", subtitles := "" }

/-- Translation of `stopVoiceActivityDetection` (lines 573-595): each
audio resource is released exactly when still held, and its handle is
nulled, so a repeated call performs no further release. -/
def stopVoiceActivityDetection (s : VoiceState) : VoiceState :=
  let s1 : VoiceState :=
    if s.vadIntervalActive then { s with vadIntervalActive := false } else s
  let s2 : VoiceState :=
    if s1.micConnected then
      { s1 with micConnected := false, micDisconnectCalls := s1.micDisconnectCalls + 1 }
    else s1
  let s3 : VoiceState :=
    if s2.audioContextOpen then
      { s2 with audioContextOpen := false, contextCloseCalls := s2.contextCloseCalls + 1 }
    else s2
  let s4 : VoiceState :=
    if s3.streamLive then
      { s3 with streamLive := false, trackStopCalls := s3.trackStopCalls + 1 }
    else s3
  { s4 with voiceActivity := 0 }

/-- Translation of `sendTextMessage` (lines 1275-1284): a no-op unless the
trimmed message is nonempty and the agent is not speaking; otherwise it
sets the transcript to the message and invokes `generateResponse`. -/
def sendTextMessage (message : String) (s : VoiceState) : VoiceState :=
  if jsTrim message ≠ "" ∧ s.isAgentSpeaking = false then
    generateResponse message { s with currentTranscript := message }
  else s

/-- Mid-utterance state for claim C1: recognition is active, an interim
transcript "oi" has armed the silence timer, and no reply has been
generated yet. -/
def c1Start : VoiceState :=
  { isConnected := true, isListening := true, isAgentSpeaking := false,
    isRecording := true, isAutoListening := true, recognitionActive := true,
    silenceTimer := some ("oi"), lastTranscript := "oi",
    currentTranscript := "oi...", subtitles := "",
    synthSpeaking := false, vadIntervalActive := false, micConnected := false,
    audioContextOpen := false, streamLive := false, voiceActivity := 0,
    replyCalls := [], recognitionStopCalls := 0, micDisconnectCalls := 0,
    contextCloseCalls := 0, trackStopCalls := 0 }

/-- Connected conversation state for claim C4. -/
def c4Start : VoiceState :=
  { isConnected := true, isListening := true, isAgentSpeaking := false,
    isRecording := true, isAutoListening := true, recognitionActive := true,
    silenceTimer := none, lastTranscript := "", currentTranscript := "",
    subtitles := "", synthSpeaking := false, vadIntervalActive := false,
    micConnected := false, audioContextOpen := false, streamLive := false,
    voiceActivity := 0, replyCalls := [], recognitionStopCalls := 0,
    micDisconnectCalls := 0, contextCloseCalls := 0, trackStopCalls := 0 }

/-! ### Session memory: user profile persistence (lines 102-150) and the
conversation-history rolling window (lines 1034-1044) -/

/-- Preference block of the persisted `UserProfile` (lines 17-22). -/
structure Preferences where
  favoriteTopics : List String
  learningGoals : List String
  conversationStyle : String
  preferredPace : String
deriving DecidableEq

/-- One entry of the `conversationHistory` rolling window (lines 23-28).
Timestamps are abstract ticks. -/
structure ConversationEntry where
  date : Nat
  topics : List String
  keyPoints : List String
  mood : String
deriving DecidableEq

/-- The persisted `UserProfile` of the first voice-provider variant
(lines 15-31). -/
structure UserProfile where
  name : Option String
  preferences : Preferences
  conversationHistory : List ConversationEntry
  createdAt : Nat
  lastActive : Nat
deriving DecidableEq

/-- Default profile returned by `loadUserProfile` when nothing is stored
(lines 126-137). -/
def defaultProfile (now : Nat) : UserProfile :=
  { name := none,
    preferences := { favoriteTopics := [], learningGoals := [],
                     conversationStyle := "friendly", preferredPace := "normal" },
    conversationHistory := [], createdAt := now, lastActive := now }

/-- Translation of `saveUserProfile` (lines 102-109): the JSON-serialised
profile replaces the stored value under the single profile key
(serialisation round-trips and is modelled as the identity). -/
def saveUserProfile (profile : UserProfile) (_store : Option UserProfile) :
    Option UserProfile :=
  some profile

/-- Translation of `loadUserProfile` (lines 111-138): a stored profile is
returned with `lastActive` refreshed to the load time; otherwise the
default profile. -/
def loadUserProfile (now : Nat) (store : Option UserProfile) : UserProfile :=
  match store with
  | some profile => { profile with lastActive := now }
  | none => defaultProfile now

/-- The conversation-history update of `generateResponse`
(lines 1042-1044): `[...history.slice(-9), entry]` keeps the last nine
entries and appends the new one. -/
def appendConversationHistory (history : List ConversationEntry)
    (entry : ConversationEntry) : List ConversationEntry :=
  history.drop (history.length - 9) ++ [entry]

/-! ### Reply engine fallback (getContextualResponse, lines 770-906, and
generateAIResponse, lines 908-988) -/

/-- Character-list test for one list being an initial run of another. -/
def startsWithChars : List Char → List Char → Bool
  | [], _ => true
  | _ :: _, [] => false
  | p :: ps, c :: cs => p == c && startsWithChars ps cs

/-- Character-list substring search used to translate
`String.prototype.includes`. -/
def hasSubChars (needle : List Char) : List Char → Bool
  | [] => needle.isEmpty
  | c :: rest => startsWithChars needle (c :: rest) || hasSubChars needle rest

/-- `hay.includes(needle)` of the source. -/
def containsSub (hay needle : String) : Bool :=
  hasSubChars needle.toList hay.toList

/-- Uppercase/lowercase pairs for the accented letters appearing in the
source tables, used to translate `String.prototype.toLowerCase`. -/
def accentPairs : List (Char × Char) :=
  [('Á', 'á'), ('À', 'à'), ('Â', 'â'), ('Ã', 'ã'), ('Ä', 'ä'),
   ('É', 'é'), ('Ê', 'ê'), ('È', 'è'), ('Í', 'í'), ('Î', 'î'), ('Ì', 'ì'),
   ('Ó', 'ó'), ('Ô', 'ô'), ('Ò', 'ò'), ('Õ', 'õ'), ('Ö', 'ö'),
   ('Ú', 'ú'), ('Û', 'û'), ('Ù', 'ù'), ('Ü', 'ü'), ('Ç', 'ç')]

/-- Per-character lowercasing (ASCII plus the accented letters above). -/
def lowerPt (c : Char) : Char :=
  if c.isUpper then c.toLower else ((accentPairs.lookup c).getD c)

/-- `String.prototype.toLowerCase` over the alphabet used by the source. -/
def jsToLower (s : String) : String :=
  String.mk (s.toList.map lowerPt)

/-- Translation of `getContextualResponse` (lines 770-906): the keyword
table of canned replies, each group selected by substring tests on the
(lowercased) user message, with a default group at the end. -/
def getContextualResponse (userMessage : String) : List String :=
  if containsSub userMessage ("olá") || containsSub userMessage ("oi") ||
     containsSub userMessage ("bom dia") || containsSub userMessage ("boa tarde") then
    ["Olá! <pause:500ms> Como você está hoje?",
     "Oi! <pause:300ms> Que bom te ver aqui. <pause:400ms> Como foi seu dia?",
     "Olá! <pause:400ms> Está tudo bem com você?"]
  else if containsSub userMessage ("bem") || containsSub userMessage ("bom") ||
     containsSub userMessage ("ótimo") then
    ["Que bom! <pause:400ms> O que você gosta de fazer no seu tempo livre?",
     "Fico feliz em saber! <pause:500ms> Conte-me sobre seus hobbies.",
     "Excelente! <pause:300ms> Qual é sua comida brasileira favorita?"]
  else if containsSub userMessage ("música") || containsSub userMessage ("cantar") ||
     containsSub userMessage ("samba") then
    ["Que legal! <pause:400ms> Qual estilo de música brasileira você mais gosta?",
     "Música é maravilhosa! <pause:300ms> Você conhece algum cantor brasileiro?",
     "Adoro música também! <pause:500ms> Você sabe dançar samba?"]
  else if containsSub userMessage ("comida") || containsSub userMessage ("comer") ||
     containsSub userMessage ("feijoada") then
    ["Hmm, <pause:200ms> delicioso! <pause:400ms> Qual prato brasileiro você mais gosta?",
     "Que bom! <pause:300ms> Você já experimentou feijoada?",
     "Comida brasileira é incrível! <pause:400ms> Você cozinha?"]
  else if containsSub userMessage ("estudar") || containsSub userMessage ("português") ||
     containsSub userMessage ("aprender") then
    ["Muito bem! <pause:500ms> Há quanto tempo você estuda português?",
     "Que dedicação! <pause:400ms> O que mais gosta na língua portuguesa?",
     "Parabéns! <pause:300ms> Por que decidiu aprender português?"]
  else if containsSub userMessage ("trabalho") || containsSub userMessage ("trabalhar") ||
     containsSub userMessage ("emprego") then
    ["Interessante! <pause:400ms> Em que área você trabalha?",
     "Que legal! <pause:300ms> Você gosta do seu trabalho?",
     "Trabalho é importante! <pause:400ms> Onde você trabalha?"]
  else if containsSub userMessage ("viajar") || containsSub userMessage ("brasil") ||
     containsSub userMessage ("cidade") then
    ["Que aventura! <pause:500ms> Qual cidade brasileira você quer visitar?",
     "Viagem é ótima! <pause:400ms> Você já esteve no Brasil?",
     "Adoraria saber mais! <pause:300ms> Que lugar você mais quer conhecer?"]
  else if containsSub userMessage ("e você") || containsSub userMessage ("e tu") then
    if containsSub userMessage ("música") || containsSub userMessage ("cantar") then
      ["Eu adoro MPB! <pause:300ms> Caetano Veloso é meu favorito. <pause:400ms> Você conhece as músicas dele?",
       "Gosto muito de bossa nova! <pause:300ms> É suave e elegante. <pause:400ms> Qual seu ritmo brasileiro favorito?"]
    else if containsSub userMessage ("comida") || containsSub userMessage ("comer") then
      ["Adoro feijoada! <pause:300ms> É o prato mais brasileiro que existe. <pause:400ms> Você já experimentou?",
       "Gosto muito de açaí! <pause:300ms> É refrescante e saudável. <pause:400ms> Que sobremesa você prefere?"]
    else if containsSub userMessage ("trabalh") || containsSub userMessage ("estud") then
      ["Eu trabalho ensinando português! <pause:300ms> É muito gratificante. <pause:400ms> O que você mais gosta no seu trabalho?",
       "Adoro estudar idiomas! <pause:300ms> Cada língua é um mundo novo. <pause:400ms> Que outras línguas você fala?"]
    else
      ["Eu estou sempre bem! <pause:300ms> Amo conversar em português. <pause:400ms> Como está se sentindo com o aprendizado?",
       "Obrigada por perguntar! <pause:300ms> Estou animada para nossa conversa. <pause:400ms> E você, como está hoje?"]
  else if containsSub userMessage ("qual você gosta") || containsSub userMessage ("que você prefere") ||
     containsSub userMessage ("qual sua") || containsSub userMessage ("você gosta de que") then
    ["Gosto de tudo relacionado ao Brasil! <pause:400ms> A cultura é muito rica. <pause:300ms> Qual aspecto do Brasil mais te interessa?",
     "Adoro música brasileira! <pause:300ms> Especialmente MPB e samba. <pause:400ms> Que tipo de música você curte?",
     "Prefiro falar sobre cultura e tradições! <pause:300ms> Brasil tem tanta diversidade. <pause:400ms> O que você quer conhecer?"]
  else if containsSub userMessage ("você acha") || containsSub userMessage ("sua opinião") ||
     containsSub userMessage ("você pensa") || containsSub userMessage ("o que pensa") then
    ["Acho que praticar é fundamental! <pause:400ms> Quanto mais conversamos, melhor fica. <pause:300ms> Você sente isso também?",
     "Penso que cada pessoa aprende diferente. <pause:300ms> Alguns preferem música, outros conversa. <pause:400ms> Como você aprende melhor?",
     "Na minha opinião, <pause:200ms> português brasileiro é lindo! <pause:300ms> As expressões são únicas. <pause:400ms> Você concorda?"]
  else if (containsSub userMessage ("como é") || containsSub userMessage ("como está") ||
     containsSub userMessage ("como vai")) &&
     (containsSub userMessage ("você") || containsSub userMessage ("tu")) then
    ["Estou muito bem! <pause:300ms> Sempre animada para ensinar. <pause:400ms> Como você está se sentindo com o português?",
     "Vai tudo ótimo! <pause:300ms> Adoro essas conversas. <pause:400ms> E você, como está o seu dia?"]
  else if containsSub userMessage ("você conhece") || containsSub userMessage ("você sabe") ||
     containsSub userMessage ("tu sabes") then
    ["Conheço muita coisa sobre o Brasil! <pause:300ms> Música, comida, cultura. <pause:400ms> O que você quer saber?",
     "Sei bastante sobre português brasileiro! <pause:300ms> É minha paixão. <pause:400ms> Que dúvida você tem?"]
  else
    ["Muito interessante! <pause:400ms> Pode me contar mais sobre isso?",
     "Que legal! <pause:300ms> Como você se sente sobre isso?",
     "Entendi! <pause:400ms> O que mais você gostaria de compartilhar?",
     "Que bom saber isso! <pause:300ms> E o que você acha?",
     "Interessante! <pause:500ms> Você pode explicar melhor?"]

/-- Selection `responses[Math.floor(Math.random() * responses.length)]`
with the random draw supplied as a natural number; the default of `getD`
is the ultimate-fallback apology of the outer catch (lines 983-986),
which is what the source returns should local selection itself fail. -/
def pickRandomResponse (rand : Nat) (responses : List String) : String :=
  responses.getD (rand % responses.length) ("Desculpe, pode repetir?")

/-- Translation of `generateAIResponse` (lines 908-988): with an API key
the primary path result is used when it succeeds, and any failure is
caught and funnelled to the local keyword-matched fallback on the
lowercased message; without an API key the local fallback is used
directly. -/
def generateAIResponse (hasApiKey : Bool) (primary : Except Unit String)
    (rand : Nat) (userMessage : String) : String :=
  if hasApiKey then
    match primary with
    | Except.ok reply => reply
    | Except.error _ =>
        pickRandomResponse rand (getContextualResponse (jsToLower userMessage))
  else pickRandomResponse rand (getContextualResponse (jsToLower userMessage))

/-! ### Synthesis with pause markup (processSpeechWithPauses, lines
153-208, and speakText, lines 658-768) -/

/-- Recognise the pause marker regex of the source at the head of the
character list: the literal run for `<pause:`, one or more digits, then
`ms>`.  Returns the digit capture and the remainder after the marker. -/
def matchPause (cs : List Char) : Option (String × List Char) :=
  if startsWithChars ("<pause:".toList) cs then
    let rest1 := cs.drop 7
    let digits := rest1.takeWhile Char.isDigit
    if digits.isEmpty then none
    else if startsWithChars ("ms>".toList) (rest1.drop digits.length) then
      some (String.mk digits, rest1.drop (digits.length + 3))
    else none
  else none

/-- Splitting on the pause regex with its capture group, as
`text.split(/<pause:(\d+)ms>/g)` does: the text pieces interleaved with
the captured digit runs.  The fuel argument only bounds the scan; the
callers pass one more than the character count, which a scan consuming at
least one character per step never exhausts. -/
def splitPausesFuel : Nat → List Char → List Char → List String
  | 0, cs, acc => [String.mk (acc ++ cs)]
  | fuel + 1, cs, acc =>
    match matchPause cs with
    | some (d, rest) => String.mk acc :: d :: splitPausesFuel fuel rest []
    | none =>
      match cs with
      | [] => [String.mk acc]
      | c :: rest => splitPausesFuel fuel rest (acc ++ [c])

/-- `text.split(/<pause:(\d+)ms>/g)` of the source (line 155). -/
def splitPauseParts (s : String) : List String :=
  splitPausesFuel (s.toList.length + 1) s.toList []

/-- Scan deleting every pause marker, for
`text.replace(/<pause:\d+ms>/g, ...)` with the empty replacement. -/
def stripPausesFuel : Nat → List Char → List Char
  | 0, cs => cs
  | fuel + 1, cs =>
    match matchPause cs with
    | some (_, rest) => stripPausesFuel fuel rest
    | none =>
      match cs with
      | [] => []
      | c :: rest => c :: stripPausesFuel fuel rest

/-- The clean caption text of lines 160 and 764. -/
def removePauseMarkers (s : String) : String :=
  String.mk (stripPausesFuel (s.toList.length + 1) s.toList)

/-- `parseInt(part, 10)` on a digit run. -/
def digitsToNat (cs : List Char) : Nat :=
  cs.foldl (fun n c => n * 10 + (c.toNat - 48)) 0

/-- One observable synthesis action: speaking one text segment, or
suspending for a pause. -/
inductive SpeakAction where
  | speakSeg (s : String)
  | pause (ms : Nat)
deriving DecidableEq

/-- The segment loop of `processSpeechWithPauses` (lines 163-204): empty
parts are skipped, all-digit parts become pauses, nonblank parts are
spoken trimmed.  The oracle says whether the platform reports an error
for the i-th spoken segment; on an error the per-segment promise rejects,
which aborts the loop (the remaining parts are never processed) and
surfaces the error to the caller. -/
def runSsmlParts (oracle : Nat → Bool) :
    List String → Nat → List SpeakAction → List SpeakAction × Bool
  | [], _, acts => (acts, false)
  | p :: rest, idx, acts =>
    if p = "" then runSsmlParts oracle rest idx acts
    else if p.toList.all Char.isDigit then
      runSsmlParts oracle rest idx (acts ++ [SpeakAction.pause (digitsToNat p.toList)])
    else if jsTrim p = "" then runSsmlParts oracle rest idx acts
    else
      if oracle idx then (acts ++ [SpeakAction.speakSeg (jsTrim p)], true)
      else runSsmlParts oracle rest (idx + 1) (acts ++ [SpeakAction.speakSeg (jsTrim p)])

/-- `processSpeechWithPauses` (lines 153-208) as the sequence of actions
performed and whether a segment error aborted it. -/
def processSpeechWithPauses (oracle : Nat → Bool) (text : String) :
    List SpeakAction × Bool :=
  runSsmlParts oracle (splitPauseParts text) 0 []

/-- End state of one `speakText` call: the synthesis actions performed,
whether the pause-markup path surfaced a segment error, and the flags on
return — `isAgentSpeaking`, `isAutoListening` and whether the
recognition-restart timeout of lines 731-757 was scheduled. -/
structure SpeakResult where
  actions : List SpeakAction
  errored : Bool
  agentSpeakingAfter : Bool
  autoListeningAfter : Bool
  restartScheduled : Bool
  subtitlesAfter : String
deriving DecidableEq

/-- Translation of `speakText` (lines 658-768).  Text with pause markup
goes through `processSpeechWithPauses`; if a segment errors the promise
rejects and the catch block (lines 759-762) only clears
`isAgentSpeaking` — auto-listening stays off and no recognition restart
is scheduled.  On success (and on the plain-text path, where the
per-utterance error handler resolves, line 714) the agent-speaking flag
is cleared, auto-listening is re-enabled and the restart timeout is
scheduled.  Line 764 sets the caption to the marker-free text on every
path. -/
def speakText (oracle : Nat → Bool) (text : String) : SpeakResult :=
  if containsSub text ("<pause:") then
    match processSpeechWithPauses oracle text with
    | (acts, true) =>
        { actions := acts, errored := true, agentSpeakingAfter := false,
          autoListeningAfter := false, restartScheduled := false,
          subtitlesAfter := removePauseMarkers text }
    | (acts, false) =>
        { actions := acts, errored := false, agentSpeakingAfter := false,
          autoListeningAfter := true, restartScheduled := true,
          subtitlesAfter := removePauseMarkers text }
  else
    { actions := [SpeakAction.speakSeg text], errored := false,
      agentSpeakingAfter := false, autoListeningAfter := true,
      restartScheduled := true, subtitlesAfter := removePauseMarkers text }

/-- Reply text with pause markup used to exercise the synthesis path. -/
def c5Text : String := "Olá! <pause:500ms> Como vai?"

/-! ### Session-1 onboarding extraction (part_001, lines 1469-1602) -/

/-- The letter class `[a-záàâãäéêèíîìóôòõöúûùüç]` of the name regexes. -/
def ptNameChars : List Char :=
  "abcdefghijklmnopqrstuvwxyzáàâãäéêèíîìóôòõöúûùüç".toList

/-- Case-insensitive membership in the name-letter class (the regexes
carry the `i` flag). -/
def isPtNameChar (c : Char) : Bool :=
  ptNameChars.contains (lowerPt c)

/-- Per-character uppercasing for `charAt(0).toUpperCase()`. -/
def upperPt (c : Char) : Char :=
  if c.isLower then c.toUpper
  else (((accentPairs.map Prod.swap).lookup c).getD c)

/-- Case-insensitive prefix test, for the `i`-flagged literal
alternatives of the name regex. -/
def startsWithCIChars : List Char → List Char → Bool
  | [], _ => true
  | _ :: _, [] => false
  | p :: ps, c :: cs => lowerPt p == lowerPt c && startsWithCIChars ps cs

/-- Try one alternative of the first name pattern
`(?:sou|me chamo|meu nome é|eu sou)\s+([letters]+)` at the head of the
character list: the literal, one or more whitespace characters, then the
greedy letter capture. -/
def tryNameAlt (alt : List Char) (cs : List Char) : Option (List Char) :=
  if startsWithCIChars alt cs then
    let rest := cs.drop alt.length
    let ws := rest.takeWhile Char.isWhitespace
    if ws.isEmpty then none
    else
      let cap := (rest.drop ws.length).takeWhile isPtNameChar
      if cap.isEmpty then none else some cap
  else none

/-- The alternation of the first name pattern at one position, in the
order written in the source. -/
def tryNameAt (cs : List Char) : Option (List Char) :=
  match tryNameAlt ("sou".toList) cs with
  | some cap => some cap
  | none =>
  match tryNameAlt ("me chamo".toList) cs with
  | some cap => some cap
  | none =>
  match tryNameAlt ("meu nome é".toList) cs with
  | some cap => some cap
  | none => tryNameAlt ("eu sou".toList) cs

/-- Left-to-right scan of the first name pattern over the message. -/
def findNameP1 : List Char → Option (List Char)
  | [] => none
  | c :: rest =>
    match tryNameAt (c :: rest) with
    | some cap => some cap
    | none => findNameP1 rest

/-- `nameMatch[1].charAt(0).toUpperCase() + slice(1).toLowerCase()`. -/
def capitalizeName (cs : List Char) : String :=
  match cs with
  | [] => ""
  | c :: rest => String.mk (upperPt c :: rest.map lowerPt)

/-- Name extraction of onboarding step 1 (part_001 lines 1476-1491): the
prefixed pattern first, then the whole-message pattern
`^([letters]{2,20})$`; the capture is capitalised. -/
def matchName (userMessage : String) : Option String :=
  match findNameP1 userMessage.toList with
  | some cap => some (capitalizeName cap)
  | none =>
    let cs := userMessage.toList
    if cs.all isPtNameChar = true ∧ 2 ≤ cs.length ∧ cs.length ≤ 20 then
      some (capitalizeName cs)
    else none

/-- The JavaScript word-character class `\w` = `[A-Za-z0-9_]`. -/
def isJsWordChar (c : Char) : Bool :=
  (('a' ≤ c && c ≤ 'z') || ('A' ≤ c && c ≤ 'Z') ||
   ('0' ≤ c && c ≤ '9') || c == '_')

/-- A `\b` boundary holds before a word character when the previous
character (if any) is not a word character. -/
def boundaryOK : Option Char → Bool
  | none => true
  | some c => !(isJsWordChar c)

/-- The literal `w` matches at the head of `cs` with a `\b` boundary
after it. -/
def wordAt (w : List Char) (cs : List Char) : Bool :=
  startsWithChars w cs &&
    (match cs.drop w.length with
     | [] => true
     | d :: _ => !(isJsWordChar d))

/-- Scan for a `\b w \b` match, tracking the previous character. -/
def hasWordAux (w : List Char) : Option Char → List Char → Bool
  | _, [] => false
  | prev, c :: rest =>
    (boundaryOK prev && wordAt w (c :: rest)) || hasWordAux w (some c) rest

/-- `/\b(w)\b/.test(msg)` for a literal alternative `w`. -/
def hasWordMatch (w : String) (msg : String) : Bool :=
  hasWordAux w.toList none msg.toList

/-- Masculine alternatives of the step-2 gender pattern (line 1496). -/
def masculinoWords : List String :=
  ["homem", "masculino", "menino", "rapaz", "garoto", "cara"]

/-- Feminine alternatives of the step-2 gender pattern (line 1497). -/
def femininoWords : List String :=
  ["mulher", "feminino", "menina", "moça", "garota", "senhora"]

/-- Remaining alternatives of the step-2 gender pattern (line 1498). -/
def outroWords : List String :=
  ["outro", "não binário", "fluido"]

/-- Gender extraction of onboarding step 2 (lines 1494-1509): the three
pattern groups are tried in order on the lowercased message. -/
def matchGender (lowerMessage : String) : Option String :=
  if masculinoWords.any (fun w => hasWordMatch w lowerMessage) then some ("masculino")
  else if femininoWords.any (fun w => hasWordMatch w lowerMessage) then some ("feminino")
  else if outroWords.any (fun w => hasWordMatch w lowerMessage) then some ("outro")
  else none

/-- The `topicKeywords` table of step 3 (lines 1512-1521). -/
def topicKeywords : List (String × List String) :=
  [("música", ["música", "cantar", "tocar", "instrumento", "banda", "samba", "rock", "pop"]),
   ("comida", ["comida", "cozinhar", "comer", "receita", "restaurante", "prato"]),
   ("esporte", ["esporte", "futebol", "correr", "nadar", "academia", "exercício"]),
   ("filmes", ["filme", "cinema", "assistir", "netflix", "série"]),
   ("leitura", ["ler", "livro", "leitura", "romance", "história"]),
   ("viagem", ["viajar", "viagem", "conhecer", "país", "cultura", "turismo"]),
   ("trabalho", ["trabalho", "emprego", "profissão", "carreira", "empresa"]),
   ("família", ["família", "filhos", "pais", "irmãos", "casado"])]

/-- The `goalKeywords` table of step 4 (lines 1541-1547). -/
def goalKeywords : List (String × List String) :=
  [("trabalho", ["trabalho", "emprego", "profissional", "carreira", "negócios"]),
   ("viagem", ["viajar", "turismo", "brasil", "visitar", "conhecer"]),
   ("família", ["família", "namorad", "casad", "filhos", "parentes"]),
   ("cultura", ["cultura", "entender", "aprender", "curiosidade", "interesse"]),
   ("estudo", ["universidade", "escola", "curso", "estudar", "educação"])]

/-- Keyword detection over a table: the entries (in table order) any of
whose keywords occurs in the lowercased message. -/
def detectFromTable (table : List (String × List String))
    (lowerMessage : String) : List String :=
  (table.filter (fun e => e.2.any (fun k => containsSub lowerMessage k))).map Prod.fst

/-- `[...new Set([...old, ...extra])]`: order-preserving deduplicated
union. -/
def dedupAppend (old extra : List String) : List String :=
  (old ++ extra).foldl (fun acc t => if acc.contains t then acc else acc ++ [t]) []

/-- The `completedSteps` checklist of `session1Progress`
(part_001 lines 33-38). -/
structure CompletedSteps where
  step1_greeting : Bool
  step2_gender : Bool
  step3_topics : Bool
  step4_goals : Bool
deriving DecidableEq

/-- The `session1Progress` onboarding record (part_001 lines 31-40). -/
structure Session1Progress where
  currentStep : Nat
  completedSteps : CompletedSteps
  isCompleted : Bool
deriving DecidableEq

/-- The `UserProfile` of the part_001 variant (lines 16-43), with the
gender and onboarding fields. -/
structure S1Profile where
  name : Option String
  gender : Option String
  preferences : Preferences
  conversationHistory : List ConversationEntry
  session1Progress : Session1Progress
  createdAt : Nat
  lastActive : Nat
deriving DecidableEq

/-- Marking of the current step in `completedSteps`
(part_001 lines 1571-1586). -/
def markStep (cur : Nat) (st : CompletedSteps) : CompletedSteps :=
  match cur with
  | 1 => { st with step1_greeting := true }
  | 2 => { st with step2_gender := true }
  | 3 => { st with step3_topics := true }
  | 4 => { st with step4_goals := true }
  | _ => st

/-- Translation of `processSession1Information` (part_001 lines
1469-1602).  Per step the extraction either succeeds, yielding the
profile update of that step together with `stepCompleted = true`, or
leaves the profile untouched (in the source `profileUpdates` is nonempty
exactly when `stepCompleted` is set, so the write guard
`Object.keys(profileUpdates).length > 0 || stepCompleted` is
`stepCompleted`).  On completion the step is marked, `currentStep`
advances by one while below 4 and otherwise jumps to 5 with
`isCompleted`, and `updateUserProfile` refreshes `lastActive`. -/
def processSession1Information (now : Nat) (p : S1Profile)
    (userMessage : String) (_aiResponse : String) : S1Profile :=
  let currentStep := p.session1Progress.currentStep
  let lowerMessage := jsToLower userMessage
  let extraction : Option (S1Profile → S1Profile) :=
    match currentStep with
    | 1 => (matchName userMessage).map (fun n q => { q with name := some n })
    | 2 => (matchGender lowerMessage).map (fun g q => { q with gender := some g })
    | 3 =>
      let detected := detectFromTable topicKeywords lowerMessage
      if detected.isEmpty then none
      else some (fun q => { q with preferences :=
        { q.preferences with
          favoriteTopics := dedupAppend q.preferences.favoriteTopics detected } })
    | 4 =>
      let detected := detectFromTable goalKeywords lowerMessage
      if detected.isEmpty then none
      else some (fun q => { q with preferences :=
        { q.preferences with
          learningGoals := dedupAppend q.preferences.learningGoals detected } })
    | _ => none
  match extraction with
  | none => p
  | some upd =>
    let marked := markStep currentStep p.session1Progress.completedSteps
    let progress :=
      if currentStep < 4 then
        { p.session1Progress with completedSteps := marked,
                                  currentStep := currentStep + 1 }
      else
        { p.session1Progress with completedSteps := marked,
                                  currentStep := 5, isCompleted := true }
    let q := upd p
    { q with session1Progress := progress, lastActive := now }

/-- A fresh profile: onboarding at step 1, nothing completed. -/
def freshS1Profile : S1Profile :=
  { name := none, gender := none,
    preferences := { favoriteTopics := [], learningGoals := [],
                     conversationStyle := "friendly", preferredPace := "normal" },
    conversationHistory := [],
    session1Progress :=
      { currentStep := 1,
        completedSteps := { step1_greeting := false, step2_gender := false,
                            step3_topics := false, step4_goals := false },
        isCompleted := false },
    createdAt := 0, lastActive := 0 }

/-- Profile after the first on-topic utterance (a name). -/
def s1Step1 : S1Profile :=
  processSession1Information 1 freshS1Profile ("me chamo maria") ("")

/-- Profile after the second on-topic utterance (a gender). -/
def s1Step2 : S1Profile :=
  processSession1Information 2 s1Step1 ("sou uma mulher") ("")

/-- Profile after the third on-topic utterance (a topic). -/
def s1Step3 : S1Profile :=
  processSession1Information 3 s1Step2 ("adoro música") ("")

/-- Profile after the fourth on-topic utterance (a learning goal). -/
def s1Step4 : S1Profile :=
  processSession1Information 4 s1Step3 ("quero viajar para o brasil") ("")

/-! ### Theorems -/

lemma vadIntervalStep_agentSpeaking (autoListening : Bool) (a : ℚ) (s : VadState) :
    vadIntervalStep autoListening true a s = s := by
  simp [vadIntervalStep]

/-- C2: for every sequence of energy samples delivered while the agent is
speaking, the voice-activity loop leaves its state unchanged (no counter
movement, no speech-start), and `startRecording` is a no-op while the
agent is speaking. -/
theorem C2_agent_speaking_suppression
    (samples : List ℚ) (autoListening : Bool) (s : VadState) :
    vadRun autoListening true samples s = s ∧ startRecording true s = s := by
  constructor
  · induction samples generalizing s with
    | nil => rfl
    | cons a rest ih =>
      show vadRun autoListening true (a :: rest) s = s
      rw [vadRun, List.foldl_cons, vadIntervalStep_agentSpeaking]
      exact ih s
  · simp [startRecording]

/-- C3 counterexample: a sample of the opposite kind does not decay the
counter toward zero — it resets it outright.  From `silenceCount = 5`, a
speech-classified sample (energy 20 > speech threshold 15) yields
`silenceCount = 0`, not the decayed value 4 the claim requires. -/
theorem C3_reset_counterexample :
    (vadIntervalStep true false 20 c3State).silenceCount = 0 ∧
    ¬ (vadIntervalStep true false 20 c3State).silenceCount = 4 := by
  decide

lemma startRecording_counts (agentSpeaking : Bool) (s : VadState) :
    (startRecording agentSpeaking s).speechCount = s.speechCount ∧
    (startRecording agentSpeaking s).silenceCount = s.silenceCount := by
  unfold startRecording; split <;> exact ⟨rfl, rfl⟩

lemma vadIntervalStep_nonneg (autoListening agentSpeaking : Bool) (a : ℚ)
    (s : VadState) (hsp : 0 ≤ s.speechCount) (hsi : 0 ≤ s.silenceCount) :
    0 ≤ (vadIntervalStep autoListening agentSpeaking a s).speechCount ∧
    0 ≤ (vadIntervalStep autoListening agentSpeaking a s).silenceCount := by
  unfold vadIntervalStep startRecording stopRecording
  repeat' split
  all_goals constructor <;> (try simp [le_max_iff]) <;> omega

/-- C3 amended: on a sample of the opposite kind a counter is reset to
zero outright (a speech sample zeroes `silenceCount`, a silence sample
zeroes `speechCount`); only on a dead-band sample do both counters decay
by one, floored at zero; and starting from nonnegative counters, neither
counter ever goes below zero over any sample sequence. -/
theorem C3_amended_counter_update (av : ℚ) (s : VadState) :
    (SPEECH_THRESHOLD < av →
      (vadIntervalStep true false av s).silenceCount = 0 ∧
      (vadIntervalStep true false av s).speechCount = s.speechCount + 1) ∧
    (av < SILENCE_THRESHOLD →
      (vadIntervalStep true false av s).speechCount = 0 ∧
      (vadIntervalStep true false av s).silenceCount = s.silenceCount + 1) ∧
    (SILENCE_THRESHOLD ≤ av → av ≤ SPEECH_THRESHOLD →
      (vadIntervalStep true false av s).speechCount = max 0 (s.speechCount - 1) ∧
      (vadIntervalStep true false av s).silenceCount = max 0 (s.silenceCount - 1)) ∧
    (∀ (samples : List ℚ) (auto agent : Bool),
      0 ≤ s.speechCount → 0 ≤ s.silenceCount →
      0 ≤ (vadRun auto agent samples s).speechCount ∧
      0 ≤ (vadRun auto agent samples s).silenceCount) := by
  refine ⟨?_, ?_, ?_, ?_⟩
  · intro h
    unfold vadIntervalStep startRecording stopRecording
    repeat' split
    all_goals first
      | exact ⟨rfl, rfl⟩
      | (exfalso; simp only [SPEECH_THRESHOLD, SILENCE_THRESHOLD] at *; linarith)
      | (simp_all; done)
  · intro h
    unfold vadIntervalStep startRecording stopRecording
    repeat' split
    all_goals first
      | exact ⟨rfl, rfl⟩
      | (exfalso; simp only [SPEECH_THRESHOLD, SILENCE_THRESHOLD] at *; linarith)
      | (simp_all; done)
  · intro h1 h2
    unfold vadIntervalStep startRecording stopRecording
    repeat' split
    all_goals first
      | exact ⟨rfl, rfl⟩
      | (exfalso; simp only [SPEECH_THRESHOLD, SILENCE_THRESHOLD] at *; linarith)
      | (simp_all; done)
  · intro samples auto agent hsp hsi
    induction samples generalizing s with
    | nil => exact ⟨hsp, hsi⟩
    | cons a rest ih =>
      show 0 ≤ (vadRun auto agent (a :: rest) s).speechCount ∧ _
      rw [vadRun, List.foldl_cons]
      rcases vadIntervalStep_nonneg auto agent a s hsp hsi with ⟨h1, h2⟩
      exact ih _ h1 h2

/-- Witness for `C3_amended_counter_update` at a concrete sample and state. -/
theorem C3_amended_counter_update_witness :
    SPEECH_THRESHOLD < (20 : ℚ) ∧
    ((vadIntervalStep true false 20 c3State).silenceCount = 0 ∧
     (vadIntervalStep true false 20 c3State).speechCount = c3State.speechCount + 1) :=
  ⟨by decide, (C3_amended_counter_update 20 c3State).1 (by decide)⟩

lemma stopRealTimeSpeechRecognition_replyCalls (s : VoiceState) :
    (stopRealTimeSpeechRecognition s).replyCalls = s.replyCalls := by
  unfold stopRealTimeSpeechRecognition; dsimp only; split <;> rfl

lemma stopRealTimeSpeechRecognition_silenceTimer (s : VoiceState) :
    (stopRealTimeSpeechRecognition s).silenceTimer = none := by
  unfold stopRealTimeSpeechRecognition; dsimp only; split <;> rfl

lemma stopRealTimeSpeechRecognition_currentTranscript (s : VoiceState) :
    (stopRealTimeSpeechRecognition s).currentTranscript = s.currentTranscript := by
  unfold stopRealTimeSpeechRecognition; dsimp only; split <;> rfl

lemma stopVoiceInput_replyCalls (s : VoiceState) :
    (stopVoiceInput s).replyCalls = s.replyCalls := by
  unfold stopVoiceInput
  rw [stopRealTimeSpeechRecognition_replyCalls]

lemma stopVoiceInput_silenceTimer (s : VoiceState) :
    (stopVoiceInput s).silenceTimer = none := by
  unfold stopVoiceInput
  rw [stopRealTimeSpeechRecognition_silenceTimer]

lemma stopVoiceInput_currentTranscript (s : VoiceState) :
    (stopVoiceInput s).currentTranscript = s.currentTranscript := by
  unfold stopVoiceInput
  rw [stopRealTimeSpeechRecognition_currentTranscript]

lemma generateResponse_replyCalls (m : String) (s : VoiceState) :
    (generateResponse m s).replyCalls = s.replyCalls ++ [m] := by
  unfold generateResponse
  dsimp only
  split
  · simp [stopVoiceInput_replyCalls]
  · rfl

lemma generateResponse_currentTranscript (m : String) (s : VoiceState) :
    (generateResponse m s).currentTranscript = s.currentTranscript := by
  unfold generateResponse
  dsimp only
  split
  · simp [stopVoiceInput_currentTranscript]
  · rfl

lemma generateResponse_silenceTimer_none (m : String) (s : VoiceState)
    (h : s.silenceTimer = none) : (generateResponse m s).silenceTimer = none := by
  unfold generateResponse
  dsimp only
  split
  · simp [stopVoiceInput_silenceTimer]
  · exact h

lemma fireSilenceTimer_none (s : VoiceState) (h : s.silenceTimer = none) :
    fireSilenceTimer s = s := by
  unfold fireSilenceTimer
  rw [h]

/-- Behaviour of `onResult` on an event carrying a nonempty final
transcript: the reply engine is invoked with the trimmed transcript, the
transcript state is updated, and the silence timer ends cleared. -/
lemma onResult_final (t : String) (s : VoiceState) (ht : jsTrim t ≠ "") :
    (onResult t ("") s).replyCalls = s.replyCalls ++ [jsTrim t] ∧
    (onResult t ("") s).currentTranscript = jsTrim t ∧
    (onResult t ("") s).silenceTimer = none := by
  unfold onResult
  rw [if_pos ht, if_neg (by simp : ¬(("" : String) ≠ ""))]
  refine ⟨?_, ?_, ?_⟩
  · rw [generateResponse_replyCalls, stopRealTimeSpeechRecognition_replyCalls]
  · rw [generateResponse_currentTranscript, stopRealTimeSpeechRecognition_currentTranscript]
  · exact generateResponse_silenceTimer_none _ _ (stopRealTimeSpeechRecognition_silenceTimer _)

lemma fireSilenceTimer_pending (s : VoiceState) (u : String)
    (hu : s.silenceTimer = some u) :
    (fireSilenceTimer s).replyCalls = s.replyCalls ++ [u] := by
  unfold fireSilenceTimer
  rw [hu]
  rw [generateResponse_replyCalls, stopRealTimeSpeechRecognition_replyCalls]

/-- C1 counterexample: when the silence timer fires first and the
recognizer then delivers the final transcript of the same utterance (a
delivery the platform may perform after the handler requests
`recognition.stop()` — the unguarded race the source acknowledges), the
reply engine is invoked twice for the one utterance: `onresult` contains
no "turn already closed" guard. -/
theorem C1_double_reply_counterexample :
    (onResult ("oi") ("") (fireSilenceTimer c1Start)).replyCalls = [("oi"), ("oi")] ∧
    ¬ (onResult ("oi") ("") (fireSilenceTimer c1Start)).replyCalls.length = 1 := by
  decide

/-- C1 amended: a final transcript does cancel the pending silence timer,
so in the final-transcript-first order the reply engine runs exactly once
and the later timer fire is a no-op; but in the timer-first order there
is no turn-closed guard in `onresult`, and a final transcript delivered
afterwards invokes the reply engine a second time. -/
theorem C1_amended_single_reply (s : VoiceState) (t u : String)
    (hu : s.silenceTimer = some u) (ht : jsTrim t ≠ "") :
    (onResult t ("") s).replyCalls = s.replyCalls ++ [jsTrim t] ∧
    (fireSilenceTimer (onResult t ("") s)).replyCalls = s.replyCalls ++ [jsTrim t] ∧
    (onResult t ("") (fireSilenceTimer s)).replyCalls
      = s.replyCalls ++ [u, jsTrim t] := by
  obtain ⟨h1, _, h3⟩ := onResult_final t s ht
  refine ⟨h1, ?_, ?_⟩
  · rw [fireSilenceTimer_none _ h3, h1]
  · obtain ⟨h4, _, _⟩ := onResult_final t (fireSilenceTimer s) ht
    rw [h4, fireSilenceTimer_pending s u hu, List.append_assoc]
    rfl

/-- Witness for `C1_amended_single_reply` at the concrete mid-utterance
state `c1Start`. -/
theorem C1_amended_single_reply_witness :
    c1Start.silenceTimer = some ("oi") ∧ jsTrim ("oi") ≠ "" ∧
    (onResult ("oi") ("") c1Start).replyCalls = c1Start.replyCalls ++ [jsTrim ("oi")] :=
  ⟨by decide, by decide,
    (C1_amended_single_reply c1Start ("oi") ("oi") (by decide) (by decide)).1⟩

/-- C4 counterexample: after `stopConversation`, a late final transcript
delivered by the previous recognition instance is not discarded — the
unguarded `onresult` handler invokes the reply engine and changes the
state (the transcript that `stopConversation` had cleared is set
again). -/
theorem C4_stale_final_counterexample :
    (onResult ("tudo bem") ("") (stopConversation c4Start)).replyCalls = [("tudo bem")] ∧
    (onResult ("tudo bem") ("") (stopConversation c4Start)).currentTranscript = ("tudo bem") ∧
    ¬ onResult ("tudo bem") ("") (stopConversation c4Start) = stopConversation c4Start := by
  decide

/-- C4 amended: a late final transcript arriving after `stopConversation`
is processed, not discarded: there is no session-generation (or any
other) guard in the `onresult` handler, so it sets the current transcript
and invokes the reply engine. -/
theorem C4_amended_stale_final (s : VoiceState) (t : String) (ht : jsTrim t ≠ "") :
    (onResult t ("") (stopConversation s)).replyCalls
      = (stopConversation s).replyCalls ++ [jsTrim t] ∧
    (onResult t ("") (stopConversation s)).currentTranscript = jsTrim t := by
  obtain ⟨h1, h2, _⟩ := onResult_final t (stopConversation s) ht
  exact ⟨h1, h2⟩

/-- Witness for `C4_amended_stale_final` at the concrete state `c4Start`. -/
theorem C4_amended_stale_final_witness :
    jsTrim ("tudo bem") ≠ "" ∧
    (onResult ("tudo bem") ("") (stopConversation c4Start)).currentTranscript
      = jsTrim ("tudo bem") :=
  ⟨by decide, (C4_amended_stale_final c4Start ("tudo bem") (by decide)).2⟩

lemma stopConversation_idem (s : VoiceState) :
    stopConversation (stopConversation s) = stopConversation s := by
  rcases s with ⟨c, l, ag, r, al, ra, st, lt, ct, sub, sy, vi, mc, ao, sl, va,
    rc, rsc, mdc, ccc, tsc⟩
  cases ra <;> rfl

lemma stopVoiceActivityDetection_idem (s : VoiceState) :
    stopVoiceActivityDetection (stopVoiceActivityDetection s)
      = stopVoiceActivityDetection s := by
  rcases s with ⟨c, l, ag, r, al, ra, st, lt, ct, sub, sy, vi, mc, ao, sl, va,
    rc, rsc, mdc, ccc, tsc⟩
  cases vi <;> cases mc <;> cases ao <;> cases sl <;> rfl

lemma stopConversation_end_state (s : VoiceState) :
    (stopConversation s).isConnected = false ∧
    (stopConversation s).silenceTimer = none ∧
    (stopConversation s).recognitionActive = false ∧
    (stopConversation s).synthSpeaking = false := by
  unfold stopConversation stopRealTimeSpeechRecognition
  dsimp only
  split
  · exact ⟨rfl, rfl, rfl, rfl⟩
  · next h => exact ⟨rfl, rfl, by simpa using h, rfl⟩

lemma stopVoiceActivityDetection_end_state (s : VoiceState) :
    (stopVoiceActivityDetection s).vadIntervalActive = false ∧
    (stopVoiceActivityDetection s).micConnected = false ∧
    (stopVoiceActivityDetection s).audioContextOpen = false ∧
    (stopVoiceActivityDetection s).streamLive = false := by
  unfold stopVoiceActivityDetection
  dsimp only
  repeat' split
  all_goals refine ⟨?_, ?_, ?_, ?_⟩ <;> first | rfl | simp_all

/-- C6: `stopConversation` is idempotent — a second call produces exactly
the same end state and performs no further stop/release operation (the
call counters are part of the state equality) — and the audio-resource
release `stopVoiceActivityDetection` is likewise idempotent, its
per-resource guards nulling each handle on first release so no resource
is released twice; after them the state is disconnected with the silence
timer cleared, recognition stopped, synthesis cancelled and every audio
resource released. -/
theorem C6_stop_idempotent (s : VoiceState) :
    stopConversation (stopConversation s) = stopConversation s ∧
    stopVoiceActivityDetection (stopVoiceActivityDetection s)
      = stopVoiceActivityDetection s ∧
    (stopConversation s).isConnected = false ∧
    (stopConversation s).silenceTimer = none ∧
    (stopConversation s).recognitionActive = false ∧
    (stopConversation s).synthSpeaking = false ∧
    (stopVoiceActivityDetection s).vadIntervalActive = false ∧
    (stopVoiceActivityDetection s).micConnected = false ∧
    (stopVoiceActivityDetection s).audioContextOpen = false ∧
    (stopVoiceActivityDetection s).streamLive = false := by
  obtain ⟨h1, h2, h3, h4⟩ := stopConversation_end_state s
  obtain ⟨h5, h6, h7, h8⟩ := stopVoiceActivityDetection_end_state s
  exact ⟨stopConversation_idem s, stopVoiceActivityDetection_idem s,
    h1, h2, h3, h4, h5, h6, h7, h8⟩

/-- C10: `sendTextMessage` is a no-op when the message trims to empty or
the agent is speaking; otherwise it sets the current transcript to the
message and invokes the reply engine exactly once. -/
theorem C10_sendTextMessage_spec (message : String) (s : VoiceState) :
    ((jsTrim message = "" ∨ s.isAgentSpeaking = true) →
      sendTextMessage message s = s) ∧
    (jsTrim message ≠ "" → s.isAgentSpeaking = false →
      (sendTextMessage message s).currentTranscript = message ∧
      (sendTextMessage message s).replyCalls = s.replyCalls ++ [message]) := by
  constructor
  · intro h
    unfold sendTextMessage
    rcases h with h | h
    · rw [if_neg]; simp [h]
    · rw [if_neg]; simp [h]
  · intro h1 h2
    unfold sendTextMessage
    rw [if_pos ⟨h1, h2⟩]
    constructor
    · rw [generateResponse_currentTranscript]
    · rw [generateResponse_replyCalls]

/-- Witness for `C10_sendTextMessage_spec` at a concrete typed message. -/
theorem C10_sendTextMessage_spec_witness :
    jsTrim ("olá") ≠ "" ∧ c4Start.isAgentSpeaking = false ∧
    (sendTextMessage ("olá") c4Start).replyCalls = c4Start.replyCalls ++ [("olá")] :=
  ⟨by decide, by decide,
    ((C10_sendTextMessage_spec ("olá") c4Start).2 (by decide) (by decide)).2⟩

lemma appendConversationHistory_length (history : List ConversationEntry)
    (entry : ConversationEntry) :
    (appendConversationHistory history entry).length ≤ 10 := by
  simp [appendConversationHistory]
  omega

lemma foldl_appendConversationHistory_length (es : List ConversationEntry)
    (acc : List ConversationEntry) (h : acc.length ≤ 10) :
    (es.foldl appendConversationHistory acc).length ≤ 10 := by
  induction es generalizing acc with
  | nil => exact h
  | cons e rest ih =>
    rw [List.foldl_cons]
    exact ih _ (appendConversationHistory_length acc e)

/-- C7: `save` then `load` yields the saved profile with only `lastActive`
refreshed; the conversation-history rolling window has length at most 10
after one append and after any further number of appends, and the window
is a suffix of the full chronological log (oldest entries evicted first,
insertion order preserved). -/
theorem C7_profile_roundtrip_history_bound
    (profile : UserProfile) (store : Option UserProfile) (now : Nat)
    (history : List ConversationEntry) (entry : ConversationEntry)
    (more : List ConversationEntry) :
    loadUserProfile now (saveUserProfile profile store)
      = { profile with lastActive := now } ∧
    (appendConversationHistory history entry).length ≤ 10 ∧
    (more.foldl appendConversationHistory
        (appendConversationHistory history entry)).length ≤ 10 ∧
    List.IsSuffix (appendConversationHistory history entry) (history ++ [entry]) := by
  refine ⟨rfl, appendConversationHistory_length history entry,
    foldl_appendConversationHistory_length more _
      (appendConversationHistory_length history entry), ?_⟩
  exact ⟨history.take (history.length - 9), by
    simp [appendConversationHistory, ← List.append_assoc]⟩

lemma all_ite {c : Prop} [Decidable c] (a b : List String) (p : String → Bool)
    (ha : a.all p = true) (hb : b.all p = true) :
    (if c then a else b).all p = true := by
  split <;> assumption

lemma getContextualResponse_all_nonempty (m : String) :
    (getContextualResponse m).all (fun s => !(s == "")) = true := by
  unfold getContextualResponse
  repeat' (first | rfl | apply all_ite)

lemma getD_nonempty (responses : List String) :
    ∀ (i : Nat) (d : String), responses.all (fun s => !(s == "")) = true →
      ¬ d = "" → ¬ responses.getD i d = "" := by
  induction responses with
  | nil =>
    intro i d _ hd
    simpa [List.getD] using hd
  | cons a rest ih =>
    intro i d h hd
    have ha := List.all_eq_true.mp h a (by simp)
    have h' : rest.all (fun s => !(s == "")) = true := by
      rw [List.all_cons] at h
      exact (Bool.and_eq_true _ _ |>.mp h).2
    cases i with
    | zero => simpa [List.getD] using ha
    | succ n => simpa [List.getD] using ih n d h' hd

lemma pickRandomResponse_nonempty (rand : Nat) (responses : List String)
    (h : responses.all (fun s => !(s == "")) = true) :
    pickRandomResponse rand responses ≠ "" := by
  unfold pickRandomResponse
  exact getD_nonempty responses (rand % responses.length) _ h (by decide)

/-- C8: whenever the primary reply path errors, reply generation still
returns nonempty text: the failure funnels to the local keyword-matched
responder, every entry of which is nonempty, with the constant apology
string as the ultimate fallback. -/
theorem C8_fallback_nonempty (hasApiKey : Bool) (rand : Nat) (userMessage : String) :
    generateAIResponse hasApiKey (Except.error ()) rand userMessage ≠ "" ∧
    pickRandomResponse rand (getContextualResponse (jsToLower userMessage)) ≠ "" ∧
    ("Desculpe, pode repetir?" : String) ≠ "" := by
  have hlocal := pickRandomResponse_nonempty rand
    (getContextualResponse (jsToLower userMessage))
    (getContextualResponse_all_nonempty (jsToLower userMessage))
  refine ⟨?_, hlocal, by decide⟩
  unfold generateAIResponse
  split <;> simpa using hlocal

/-- C5 counterexample: when the first segment of a pause-markup reply
errors, the remaining segment is never spoken and recognition is NOT
re-enabled — auto-listening stays off and no restart is scheduled — so
the claimed "recognition is re-enabled on success or error" fails. -/
theorem C5_error_path_counterexample :
    (speakText (fun _ => true) c5Text).actions = [SpeakAction.speakSeg ("Olá!")] ∧
    (speakText (fun _ => true) c5Text).autoListeningAfter = false ∧
    (speakText (fun _ => true) c5Text).restartScheduled = false := by
  decide

/-- C5 amended: `speakText` always completes with the agent-speaking flag
cleared (exactly one completion of the call, error or not); on a run with
no segment error the segments are spoken in order with the specified
pauses between them and recognition is re-enabled (auto-listening on,
restart scheduled); but when a segment errors in the pause-markup path
the remaining segments are skipped and recognition is NOT re-enabled. -/
theorem C5_amended_speak_completion (oracle : Nat → Bool) (text : String) :
    (speakText oracle text).agentSpeakingAfter = false ∧
    ((speakText oracle text).errored = false →
      (speakText oracle text).autoListeningAfter = true ∧
      (speakText oracle text).restartScheduled = true) ∧
    ((speakText oracle text).errored = true →
      (speakText oracle text).autoListeningAfter = false ∧
      (speakText oracle text).restartScheduled = false) ∧
    (speakText (fun _ => false) c5Text).actions
      = [SpeakAction.speakSeg ("Olá!"), SpeakAction.pause 500,
         SpeakAction.speakSeg ("Como vai?")] := by
  refine ⟨?_, ?_, ?_, by decide⟩ <;>
    · unfold speakText
      split
      · rcases processSpeechWithPauses oracle text with ⟨acts, err⟩
        cases err <;> simp

      · simp

/-- Witness for `C5_amended_speak_completion`: the erroring run on the
concrete pause-markup reply. -/
theorem C5_amended_speak_completion_witness :
    (speakText (fun _ => true) c5Text).errored = true ∧
    ((speakText (fun _ => true) c5Text).autoListeningAfter = false ∧
     (speakText (fun _ => true) c5Text).restartScheduled = false) :=
  ⟨by decide, (C5_amended_speak_completion (fun _ => true) c5Text).2.2.1 (by decide)⟩

/-- C9 counterexample: after the four on-topic utterances the onboarding
is ALREADY completed — the fourth utterance sets `currentStep = 5` and
`isCompleted = true` — and a fifth utterance changes nothing, so it is
not the fifth that advances to the completed state as the claim says. -/
theorem C9_fourth_completes_counterexample :
    s1Step4.session1Progress.isCompleted = true ∧
    s1Step4.session1Progress.currentStep = 5 ∧
    processSession1Information 5 s1Step4 ("vamos conversar sobre comida") ("")
      = s1Step4 := by
  decide

/-- C9 amended: from a fresh profile, each of the four on-topic
utterances (name, gender, topic, goal) advances `currentStep` by exactly
one and sets the corresponding completed-step flag, with the FOURTH
already reaching the completed state (`currentStep = 5`,
`isCompleted = true`); a fifth utterance leaves the profile unchanged. -/
theorem C9_amended_onboarding :
    s1Step1.session1Progress.currentStep = 2 ∧
    s1Step1.session1Progress.completedSteps.step1_greeting = true ∧
    s1Step1.name = some ("Maria") ∧
    s1Step2.session1Progress.currentStep = 3 ∧
    s1Step2.session1Progress.completedSteps.step2_gender = true ∧
    s1Step2.gender = some ("feminino") ∧
    s1Step3.session1Progress.currentStep = 4 ∧
    s1Step3.session1Progress.completedSteps.step3_topics = true ∧
    s1Step3.preferences.favoriteTopics = [("música")] ∧
    s1Step4.session1Progress.currentStep = 5 ∧
    s1Step4.session1Progress.completedSteps.step4_goals = true ∧
    s1Step4.session1Progress.isCompleted = true ∧
    s1Step4.preferences.learningGoals = [("viagem")] ∧
    processSession1Information 5 s1Step4 ("e depois") ("") = s1Step4 := by
  decide
